import Mathlib

/-!
Verification development for the tech-stack analyzer's detection and
aggregation core (the API route in `src/app/layout.tsx`, lines 27-802).

The embedding is shallow: the aggregation pipeline `detectTechStack`, the
header mappers (`mapServerHeader`, `inferCDN`, `inferHosting`), the
edge-vs-origin de-duplication (`dedupeEdgeVsOrigin`), the script work-list
builder (`pickTopScripts`), the script-fetch helpers (`fetchText`,
`containsInScripts`), the corroboration-threshold detectors, and the `POST`
request handler are translated into pure Lean functions.

JavaScript strings are Lean `String`s; the case-insensitive regular
expressions of the source (all of which are substring alternations) are
modelled by an executable lowercase-and-infix check.  Individual detector
outcomes (which in the source are computed from the parsed DOM and from
fetched script bodies) enter the aggregator as boolean fields of a
`Signals` record: `detectTechStack` in the source consumes exactly those
booleans, so the aggregator is modelled faithfully over them.  Asynchrony
collapses: `Promise.all` preserves index order and JS `Set` preserves
insertion order, so every list below is built in the source's program
order.
-/

/-- Lowercase a character the way JS `toLowerCase` does on ASCII
(the source only compares ASCII signature strings). -/
def lowerChar (c : Char) : Char :=
  Char.ofNat (if 65 ≤ c.toNat && c.toNat ≤ 90 then c.toNat + 32 else c.toNat)

/-- Lowercased character list of a string. -/
def lowerStr (s : String) : List Char := s.data.map lowerChar

/-- Boolean list-prefix test. -/
def listPrefixB : List Char → List Char → Bool
  | [], _ => true
  | _ :: _, [] => false
  | a :: as, b :: bs => a == b && listPrefixB as bs

/-- Boolean list-infix test (`pat` occurs contiguously in the second list). -/
def listInfixB : List Char → List Char → Bool
  | pat, [] => listPrefixB pat []
  | pat, b :: rest => listPrefixB pat (b :: rest) || listInfixB pat rest

/-- Case-insensitive substring test: models both `/pat/i.test(s)` for the
source's alternation-of-substrings regexes and `s.toLowerCase().includes(pat)`. -/
def containsI (s pat : String) : Bool := listInfixB (lowerStr pat) (lowerStr s)

/-- JS `(cond ? 1 : 0)` used by the corroboration-count detectors. -/
def bnum (b : Bool) : Nat := if b then 1 else 0

/-- Keep the labels whose accompanying flag is true (JS builds these lists by
conditional `push`/`add` in program order; all labels in one list are distinct,
so a JS `Set` coincides with the filtered list). -/
def pickLabels (l : List (String × Bool)) : List String :=
  (l.filter (fun p => p.2)).map (fun p => p.1)

/-- A JS array field is stored only when nonempty
(`if (xs.length) tech.f = xs`). -/
def optList (l : List String) : Option (List String) :=
  if l.isEmpty then none else some l

/-- JS `Set.add`: append if not already present (string identity). -/
def insSet (l : List String) (x : String) : List String :=
  if l.contains x then l else l ++ [x]

/-- Response headers as delivered to `detectTechStack`: an association list of
(name, value) pairs; the `POST` handler lowercases every name before the call. -/
abbrev Headers := List (String × String)

/-- Lookup used by `inferCDN`/`inferHosting` (layout.tsx:740-741, 754-755):
they rebuild the header object with lowercased keys (later duplicates win,
as in a JS object built by assignment) and read with a `''` default for a
missing key. -/
def hget (hs : Headers) (k : String) : String :=
  (List.lookup k.data ((hs.map (fun p => (lowerStr p.1, p.2))).reverse)).getD ""

/-- The `TechStack` interface of layout.tsx:35-50; every field optional,
absent (`none`) meaning undetected. -/
structure TechStack where
  cms : Option String := none
  javascriptFrameworks : Option (List String) := none
  cssFrameworks : Option (List String) := none
  server : Option String := none
  webServer : Option String := none
  analytics : Option (List String) := none
  buildTools : Option (List String) := none
  compression : Option (List String) := none
  isWordPress : Option Bool := none
  cdn : Option (List String) := none
  hosting : Option String := none
  payments : Option (List String) := none
  marketing : Option (List String) := none
  monitoring : Option (List String) := none
deriving Repr, DecidableEq

/-- The `serverHeaderAliases` table walk of layout.tsx:66-88: first matching
alias wins, otherwise the raw value is returned.  Each alias regex is an
`/i` alternation of plain substrings; `server:\s*ESF` is subsumed by the
`ESF` substring and `microsoft-iis` by `iis`. -/
def mapServerHeader (raw : String) : String :=
  if containsI raw "gws" || containsI raw "esf" || containsI raw "google frontend"
      || containsI raw "google front end" then "Google Frontend"
  else if containsI raw "apache" then "Apache HTTP Server"
  else if containsI raw "nginx" then "NGINX"
  else if containsI raw "cloudflare" then "Cloudflare"
  else if containsI raw "cloudfront" then "Amazon CloudFront"
  else if containsI raw "iis" then "Microsoft IIS"
  else if containsI raw "vercel" then "Vercel"
  else if containsI raw "awselb" || containsI raw "elastic load balancer" then
    "AWS Elastic Load Balancer"
  else if containsI raw "gunicorn" then "Gunicorn"
  else if containsI raw "caddy" then "Caddy"
  else if containsI raw "lighttpd" then "lighttpd"
  else if containsI raw "fastly" then "Fastly (edge)"
  else if containsI raw "akamai" then "Akamai (edge)"
  else raw

/-- CDN inference from header fingerprints, layout.tsx:739-751.
The JS `Set` receives distinct labels in program order. -/
def inferCDN (hs : Headers) : List String :=
  pickLabels
    [("Cloudflare",
        hget hs "cf-ray" != "" || hget hs "cf-cache-status" != ""
          || containsI (hget hs "server") "cloudflare"),
     ("Amazon CloudFront",
        hget hs "x-amz-cf-pop" != "" || containsI (hget hs "via") "cloudfront"),
     ("Fastly",
        containsI (hget hs "x-served-by") "fastly"
          || containsI (hget hs "server") "fastly"),
     ("Akamai",
        containsI (hget hs "server") "akamai"
          || hget hs "x-akamai-transformed" != ""
          || hget hs "x-akamai-staging" != ""),
     ("Vercel Edge",
        containsI (hget hs "server") "vercel" || hget hs "x-vercel-id" != ""),
     ("Azure CDN/Front Door",
        containsI (hget hs "x-cache") "cache" && hget hs "x-azure-ref" != "")]

/-- Hosting inference, layout.tsx:753-764: first matching provider wins. -/
def inferHosting (hs : Headers) : Option String :=
  if hget hs "x-vercel-id" != "" || containsI (hget hs "server") "vercel" then
    some "Vercel"
  else if hget hs "x-nf-request-id" != "" || containsI (hget hs "server") "netlify" then
    some "Netlify"
  else if hget hs "x-github-request-id" != ""
      || containsI (hget hs "server") "github.com" then some "GitHub Pages"
  else if hget hs "fly-request-id" != "" || containsI (hget hs "server") "fly.io" then
    some "Fly.io"
  else if hget hs "x-render-origin-server" != ""
      || containsI (hget hs "server") "render" then some "Render"
  else if containsI (hget hs "server") "azure" then some "Azure"
  else if containsI (hget hs "server") "google" then some "Google Cloud"
  else none

/-- The `ensureCdn` closure of `dedupeEdgeVsOrigin` (layout.tsx:148-152):
append the provider unless already present under case-insensitive identity. -/
def ensureCdn (cdn : Option (List String)) (name : String) : List String :=
  let list := cdn.getD []
  if list.any (fun c => lowerStr c == lowerStr name) then list else list ++ [name]

/-- Server/cdn rewriting of `dedupeEdgeVsOrigin` (layout.tsx:145-192) as a
function of the two fields it touches.  `!tech.server` is true for a missing
or empty server; each recognized edge label clears `server` and ensures the
provider in `cdn`; the Vercel branch first checks for any existing
cdn entry containing "vercel" (`/vercel/i.test(c)`). -/
def dedupeSC (server : Option String) (cdn : Option (List String)) :
    Option String × Option (List String) :=
  match server with
  | none => (none, cdn)
  | some s0 =>
    if s0 == "" then (some s0, cdn)
    else
      let s := String.mk (lowerStr s0)
      if containsI s "cloudflare" then (none, some (ensureCdn cdn "Cloudflare"))
      else if containsI s "fastly" then (none, some (ensureCdn cdn "Fastly"))
      else if containsI s "akamai" then (none, some (ensureCdn cdn "Akamai"))
      else if containsI s "cloudfront" then (none, some (ensureCdn cdn "Amazon CloudFront"))
      else if containsI s "google frontend" || containsI s "gws" || containsI s "esf" then
        (none, some (ensureCdn cdn "Google Frontend"))
      else if containsI s "vercel" then
        (none,
          if (cdn.getD []).any (fun c => containsI c "vercel") then cdn
          else some (ensureCdn cdn "Vercel Edge"))
      else (some s0, cdn)

/-- The final de-duplication pass of the aggregator (layout.tsx:145-192, 332):
only `server` and `cdn` are mutated. -/
def dedupeEdgeVsOrigin (t : TechStack) : TechStack :=
  { t with server := (dedupeSC t.server t.cdn).1, cdn := (dedupeSC t.server t.cdn).2 }

/-- Boolean outcomes of the individual detectors on one evidence bundle,
plus the two raw markup values the aggregator reads directly.  In the source
each boolean is computed from the parsed HTML, the headers and fetched script
bodies; `detectTechStack` consumes exactly these values. -/
structure Signals where
  shopify : Bool := false
  squarespace : Bool := false
  wix : Bool := false
  wordpressMarkup : Bool := false
  wordpressAPI : Bool := false
  drupal : Bool := false
  joomla : Bool := false
  generator : Option String := none
  react : Bool := false
  vue : Bool := false
  angular : Bool := false
  nextjs : Bool := false
  gatsby : Bool := false
  svelte : Bool := false
  ember : Bool := false
  nuxtjs : Bool := false
  polymer : Bool := false
  jquery : Bool := false
  backbone : Bool := false
  dojo : Bool := false
  meteor : Bool := false
  astro : Bool := false
  remix : Bool := false
  alpine : Bool := false
  htmx : Bool := false
  bootstrap : Bool := false
  tailwind : Bool := false
  bulma : Bool := false
  foundation : Bool := false
  materialUI : Bool := false
  semanticUI : Bool := false
  materializeCSS : Bool := false
  googleAnalytics : Bool := false
  googleTagManager : Bool := false
  matomoHit : Bool := false
  plausibleHit : Bool := false
  mixpanelHit : Bool := false
  amplitudeHit : Bool := false
  segment : Bool := false
  hubspot : Bool := false
  mailchimp : Bool := false
  intercom : Bool := false
  drift : Bool := false
  hotjar : Bool := false
  sentry : Bool := false
  datadog : Bool := false
  newRelic : Bool := false
  stripe : Bool := false
  braintree : Bool := false
  paypal : Bool := false
  htmlHasWebpack : Bool := false
  htmlHasGulp : Bool := false
  htmlHasGrunt : Bool := false
  scriptsVite : Bool := false
  scriptsParcel : Bool := false
  scriptsRollup : Bool := false
deriving Repr, DecidableEq

/-- CMS priority chain of layout.tsx:203-220 (first match wins); the fallback
stores a truthy `meta[name="generator"]` content. -/
def cmsField (s : Signals) : Option String :=
  if s.shopify then some "Shopify"
  else if s.squarespace then some "Squarespace"
  else if s.wix then some "Wix"
  else if s.wordpressMarkup || s.wordpressAPI then some "WordPress"
  else if s.drupal then some "Drupal"
  else if s.joomla then some "Joomla"
  else
    match s.generator with
    | some g => if g == "" then none else some g
    | none => none

/-- The `isWordPress` flag is set (to `true`) exactly in the WordPress branch
of the CMS chain (layout.tsx:210-212). -/
def isWordPressFlag (s : Signals) : Option Bool :=
  if s.shopify then none
  else if s.squarespace then none
  else if s.wix then none
  else if s.wordpressMarkup || s.wordpressAPI then some true
  else none

/-- The JS-framework set after the `x-powered-by` folding: the 17 detector
results in the order of `jsDetections` (layout.tsx:225-246), then `Next.js` /
`Nuxt.js` added from a truthy `x-powered-by` header (layout.tsx:318-323). -/
def jsSetFinal (s : Signals) (hs : Headers) : List String :=
  let js0 := pickLabels
    [("React", s.react), ("Vue.js", s.vue), ("Angular", s.angular),
     ("Next.js", s.nextjs), ("Gatsby", s.gatsby), ("Svelte", s.svelte),
     ("Ember.js", s.ember), ("Nuxt.js", s.nuxtjs), ("Polymer", s.polymer),
     ("jQuery", s.jquery), ("Backbone.js", s.backbone), ("Dojo", s.dojo),
     ("Meteor", s.meteor), ("Astro", s.astro), ("Remix", s.remix),
     ("Alpine.js", s.alpine), ("HTMX", s.htmx)]
  match List.lookup "x-powered-by" hs with
  | none => js0
  | some xp =>
    if xp == "" then js0
    else
      let a := if containsI xp "next.js" then insSet js0 "Next.js" else js0
      if containsI xp "nuxt.js" then insSet a "Nuxt.js" else a

/-- `webServer` from a truthy `x-powered-by` header that does not name
Next.js or Nuxt.js (layout.tsx:318-323). -/
def webServerField (hs : Headers) : Option String :=
  match List.lookup "x-powered-by" hs with
  | none => none
  | some xp =>
    if xp == "" then none
    else if containsI xp "next.js" || containsI xp "nuxt.js" then none
    else some xp

/-- CSS-framework block (layout.tsx:249-260): runs only when
`tech.isWordPress` is not truthy; pushes in program order. -/
def cssField (s : Signals) : Option (List String) :=
  if (isWordPressFlag s).getD false then none
  else optList (pickLabels
    [("Bootstrap", s.bootstrap), ("Tailwind CSS", s.tailwind),
     ("Bulma", s.bulma), ("Foundation", s.foundation),
     ("Material UI", s.materialUI), ("Semantic UI", s.semanticUI),
     ("Materialize CSS", s.materializeCSS)])

/-- Analytics pushes in program order (layout.tsx:263-271). -/
def analyticsField (s : Signals) : Option (List String) :=
  optList (pickLabels
    [("Google Analytics / gtag.js", s.googleAnalytics),
     ("Google Tag Manager", s.googleTagManager), ("Matomo", s.matomoHit),
     ("Plausible", s.plausibleHit), ("Mixpanel", s.mixpanelHit),
     ("Amplitude", s.amplitudeHit), ("Segment", s.segment)])

/-- Marketing pushes in program order (layout.tsx:273-279). -/
def marketingField (s : Signals) : Option (List String) :=
  optList (pickLabels
    [("HubSpot", s.hubspot), ("Mailchimp", s.mailchimp),
     ("Intercom", s.intercom), ("Drift", s.drift), ("Hotjar", s.hotjar)])

/-- Monitoring pushes in program order (layout.tsx:281-285). -/
def monitoringField (s : Signals) : Option (List String) :=
  optList (pickLabels
    [("Sentry", s.sentry), ("Datadog RUM", s.datadog), ("New Relic", s.newRelic)])

/-- Payments pushes in program order (layout.tsx:287-291). -/
def paymentsField (s : Signals) : Option (List String) :=
  optList (pickLabels
    [("Stripe", s.stripe), ("Braintree", s.braintree), ("PayPal", s.paypal)])

/-- Build-tool set in insertion order (layout.tsx:293-306). -/
def buildField (s : Signals) : Option (List String) :=
  optList (pickLabels
    [("Webpack", s.htmlHasWebpack), ("Gulp", s.htmlHasGulp),
     ("Grunt", s.htmlHasGrunt), ("Vite", s.scriptsVite),
     ("Parcel", s.scriptsParcel), ("Rollup", s.scriptsRollup)])

/-- Compression from the lowercased `content-encoding` header
(layout.tsx:308-314). -/
def compressionField (hs : Headers) : Option (List String) :=
  let enc := (List.lookup "content-encoding" hs).getD ""
  optList (pickLabels
    [("Brotli", containsI enc "br"), ("Gzip", containsI enc "gzip"),
     ("Deflate", containsI enc "deflate")])

/-- Server field from a truthy `server` header mapped through the alias table
(layout.tsx:317); `mapServerHeader` never returns a falsy value for a truthy
input, so `|| headers['server']` never fires. -/
def serverField (hs : Headers) : Option String :=
  match List.lookup "server" hs with
  | none => none
  | some v => if v == "" then none else some (mapServerHeader v)

/-- The aggregator `detectTechStack` (layout.tsx:195-335): each record field
as assembled by the sequential body, with `dedupeEdgeVsOrigin` applied as the
final pass.  `javascriptFrameworks` is stored from the final `jsSet` (the
line-324 re-assignment supersedes the line-247 one exactly when the set is
nonempty); `cdn` and `hosting` are stored when nonempty (layout.tsx:326-330). -/
def detectTechStack (s : Signals) (hs : Headers) : TechStack :=
  dedupeEdgeVsOrigin
    { cms := cmsField s
      javascriptFrameworks := optList (jsSetFinal s hs)
      cssFrameworks := cssField s
      server := serverField hs
      webServer := webServerField hs
      analytics := analyticsField s
      buildTools := buildField s
      compression := compressionField hs
      isWordPress := isWordPressFlag s
      cdn := optList (inferCDN hs)
      hosting := inferHosting hs
      payments := paymentsField s
      marketing := marketingField s
      monitoring := monitoringField s }

/-- Cap on secondary script fetches (layout.tsx:53). -/
def MAX_SCRIPT_REQUESTS : Nat := 12

/-- One resolved script/preload candidate of `pickTopScripts`
(layout.tsx:94-113): absolute URL plus the two ranking attributes. -/
structure ScriptCand where
  url : String
  sameOrigin : Bool
  isModule : Bool
deriving Repr, DecidableEq

/-- Ranking of layout.tsx:105: `(isModule ? 0 : 1) + (sameOrigin ? 0 : 1)`. -/
def scriptPriority (c : ScriptCand) : Nat :=
  bnum (!c.isModule) + bnum (!c.sameOrigin)

/-- Comparator of layout.tsx:115 (`(a, b) => a.priority - b.priority`,
a stable ascending sort under ES2019 semantics). -/
def priOrder (a b : ScriptCand) : Prop := scriptPriority a ≤ scriptPriority b

instance : DecidableRel priOrder := fun x y => Nat.decLe (scriptPriority x) (scriptPriority y)

instance : IsTotal ScriptCand priOrder :=
  ⟨fun x y => Nat.le_total (scriptPriority x) (scriptPriority y)⟩

instance : IsTrans ScriptCand priOrder := ⟨fun _ _ _ => Nat.le_trans⟩

/-- The candidates kept by `pickTopScripts`: drop the unparsable entries
(the `null`s of the map/filter in layout.tsx:94-113), stable-sort ascending
by priority, keep the first `MAX_SCRIPT_REQUESTS`. -/
def selectedCands (cands : List (Option ScriptCand)) : List ScriptCand :=
  ((cands.filterMap id).insertionSort priOrder).take MAX_SCRIPT_REQUESTS

/-- layout.tsx:91-117: the prioritized, capped work-list of script URLs.
No de-duplication is performed anywhere in the function. -/
def pickTopScripts (cands : List (Option ScriptCand)) : List String :=
  (selectedCands cands).map (fun c => c.url)

/-- Outcome of the HTTP layer for one secondary script request: a thrown
error (network failure, timeout, non-2xx via interceptor, oversize body),
a string body, or a non-string body (delivered to `fetchText` already
JSON-stringified). -/
inductive FetchOutcome where
  | fail
  | strData (s : String)
  | jsonData (s : String)
deriving Repr, DecidableEq

/-- layout.tsx:119-126: the script body on success (stringified when not
already a string), `null` on any failure; the `try/catch` means the caller
never sees an exception — modelled by totality into `Option`. -/
def fetchText : FetchOutcome → Option String
  | .fail => none
  | .strData s => some s
  | .jsonData s => some s

/-- layout.tsx:128-143: fetch each work-list script (the oracle gives each
URL's outcome) and report whether any successfully fetched, truthy body
matches; a failed or empty body contributes `false`. -/
def containsInScripts (oracle : String → FetchOutcome)
    (cands : List (Option ScriptCand)) (matcher : String → Bool) : Bool :=
  (pickTopScripts cands).any fun u =>
    match fetchText (oracle u) with
    | some t => if t == "" then false else matcher t
    | none => false

/-- layout.tsx:451-456: Matomo needs 2 of {src-tag, inline pattern,
fetched-script pattern}. -/
def containsMatomo (srcTag inlinePat inScripts : Bool) : Bool :=
  decide (2 ≤ bnum srcTag + bnum inlinePat + bnum inScripts)

/-- layout.tsx:458-463: Plausible needs 2 of 3 signals. -/
def containsPlausible (srcTag inlinePat inScripts : Bool) : Bool :=
  decide (2 ≤ bnum srcTag + bnum inlinePat + bnum inScripts)

/-- layout.tsx:465-470: Mixpanel needs 2 of 3 signals. -/
def containsMixpanel (srcTag inlinePat inScripts : Bool) : Bool :=
  decide (2 ≤ bnum srcTag + bnum inlinePat + bnum inScripts)

/-- layout.tsx:472-477: Amplitude needs 2 of 3 signals. -/
def containsAmplitude (srcTag inlinePat inScripts : Bool) : Bool :=
  decide (2 ≤ bnum srcTag + bnum inlinePat + bnum inScripts)

/-- layout.tsx:524-532: jQuery needs 2 of {src-tag, inline, fetched-script}. -/
def containsjQuery (hasTag inlinePat inScripts : Bool) : Bool :=
  decide (2 ≤ bnum hasTag + bnum inlinePat + bnum inScripts)

/-- layout.tsx:534-539: Backbone needs 2 of 3 signals. -/
def containsBackbone (hasTag inlinePat inScripts : Bool) : Bool :=
  decide (2 ≤ bnum hasTag + bnum inlinePat + bnum inScripts)

/-- layout.tsx:541-546: Dojo needs 2 of 3 signals. -/
def containsDojo (hasTag inlinePat inScripts : Bool) : Bool :=
  decide (2 ≤ bnum hasTag + bnum inlinePat + bnum inScripts)

/-- layout.tsx:548-554: Meteor needs 2 of {src-tag, inline, id-attribute,
fetched-script}. -/
def containsMeteor (hasTag inlinePat hasAttr inScripts : Bool) : Bool :=
  decide (2 ≤ bnum hasTag + bnum inlinePat + bnum hasAttr + bnum inScripts)

/-- layout.tsx:339-356: the WordPress markup check scores its eight regex
signals over the document and requires a score of at least 2. -/
def isWordPress (wpContent wpIncludes wpAdmin wpEmbed wpEmoji wpBlogHeader
    wpGenerator wpApiLink : Bool) : Bool :=
  decide (2 ≤ bnum wpContent + bnum wpIncludes + bnum wpAdmin + bnum wpEmbed
    + bnum wpEmoji + bnum wpBlogHeader + bnum wpGenerator + bnum wpApiLink)

/-- A JSON value as far as the request body's `url` field is concerned. -/
inductive JsVal where
  | str (s : String)
  | num (n : Int)
  | boolean (b : Bool)
  | null
deriving Repr, DecidableEq

/-- JS truthiness of such a value (`!url`). -/
def jsTruthy : JsVal → Bool
  | .str s => s != ""
  | .num n => n != 0
  | .boolean b => b
  | .null => false

/-- JS `typeof url === 'string'`. -/
def isStringVal : JsVal → Bool
  | .str _ => true
  | _ => false

/-- Parsed request body: the `url` field may be absent. -/
structure ReqBody where
  urlField : Option JsVal := none
deriving Repr, DecidableEq

/-- The guard of layout.tsx:771: `!url || typeof url !== 'string'`. -/
def urlInvalid : Option JsVal → Bool
  | none => true
  | some v => !(jsTruthy v) || !(isStringVal v)

/-- Outcome of the primary-document fetch (`validateStatus: () => true`
keeps any completed response out of the catch branch). -/
inductive PrimaryFetch where
  | netFail
  | resp (status : Nat) (headers : Headers) (data : String)
deriving Repr, DecidableEq

/-- An HTTP response of the route: an error body or a tech-stack body. -/
inductive ApiResult where
  | errorResp (status : Nat) (msg : String)
  | techResp (status : Nat) (tech : TechStack)
deriving Repr, DecidableEq

/-- The `POST` handler of layout.tsx:767-802 together with a count of
outbound network requests.  `body = none` models a request whose JSON parse
throws.  `sig` abstracts the detector outcomes computed from the fetched
document and scripts, and `scriptCalls` the number of secondary fetches the
analysis issues; both are irrelevant on every error path.  The handler
lowercases the response-header names before calling `detectTechStack`
(layout.tsx:792-794). -/
def POST (body : Option ReqBody) (fetchPrimary : PrimaryFetch)
    (sig : Signals) (scriptCalls : Nat) : ApiResult × Nat :=
  match body with
  | none => (.errorResp 400 "Invalid request body", 0)
  | some rb =>
    if urlInvalid rb.urlField then (.errorResp 400 "URL is required", 0)
    else
      match fetchPrimary with
      | .netFail => (.errorResp 502 "Error fetching the URL", 1)
      | .resp status hdrs _ =>
        if status == 403 then
          (.errorResp 403 "Access to the URL is forbidden (403).", 1)
        else if 400 ≤ status then
          (.errorResp 400 ("Target responded with " ++ toString status), 1)
        else
          (.techResp 200
            (detectTechStack sig (hdrs.map (fun p => (String.mk (lowerStr p.1), p.2)))),
           1 + scriptCalls)

/-- Evidence with the WordPress markup detector and the React detector both
positive and everything else negative; realizable e.g. by a document with
two `/wp-content/` + `/wp-includes/` references and a `data-reactroot`
attribute, fetched with no notable headers. -/
def wpReactSignals : Signals := { wordpressMarkup := true, react := true }

/-- Evidence whose only markup signal is a generator meta tag naming
WordPress; realizable by a document whose sole signature line is
`meta name="generator" content="WordPress"` (one WordPress signal only, so
the markup detector scores 1 and returns false). -/
def generatorOnlySignals : Signals := { generator := some "WordPress" }

/-- Evidence with no detector hits at all. -/
def noSignals : Signals := {}

/-- Headers whose `server` value matches the Apache alias before the
Cloudflare alias. -/
def apacheCloudflareHeaders : Headers := [("server", "apache cloudflare")]

/-- Headers of the spec's Cloudflare scenario. -/
def cloudflareHeaders : Headers := [("server", "cloudflare")]

/-- A same-origin non-module script candidate, listed twice. -/
def dupScriptCand : ScriptCand :=
  { url := "https://example.com/app.js", sameOrigin := true, isModule := false }

/-! Helper lemmas shared by the claim theorems. -/

/-- A label list starts with its head label when the head flag is true. -/
theorem pickLabels_cons_true (lbl : String) (rest : List (String × Bool)) :
    pickLabels ((lbl, true) :: rest) = lbl :: pickLabels rest := by
  simp [pickLabels]

/-- A list with a member is stored by `optList`. -/
theorem optList_of_mem (l : List String) (x : String) (hx : x ∈ l) :
    optList l = some l := by
  unfold optList
  cases l with
  | nil => cases hx
  | cons a t => rfl

/-- `ensureCdn` only ever appends. -/
theorem mem_ensureCdn (cdn : Option (List String)) (name x : String)
    (hx : x ∈ cdn.getD []) : x ∈ ensureCdn cdn name := by
  unfold ensureCdn
  dsimp only
  split
  · exact hx
  · exact List.mem_append_left _ hx

/-- The de-duplication pass never removes a cdn entry. -/
theorem mem_dedupeSC_cdn (srv : Option String) (cdn : Option (List String))
    (x : String) (hx : x ∈ cdn.getD []) :
    x ∈ ((dedupeSC srv cdn).2.getD []) := by
  unfold dedupeSC
  cases srv with
  | none => exact hx
  | some s0 =>
    by_cases h0 : (s0 == "") = true
    · simpa [h0] using hx
    · simp only [h0, Bool.false_eq_true, if_false]
      split
      · simpa using mem_ensureCdn cdn "Cloudflare" x hx
      · split
        · simpa using mem_ensureCdn cdn "Fastly" x hx
        · split
          · simpa using mem_ensureCdn cdn "Akamai" x hx
          · split
            · simpa using mem_ensureCdn cdn "Amazon CloudFront" x hx
            · split
              · simpa using mem_ensureCdn cdn "Google Frontend" x hx
              · split
                · split
                  · simpa using hx
                  · simpa using mem_ensureCdn cdn "Vercel Edge" x hx
                · simpa using hx

/-- On a server value mapped to the `Cloudflare` label, the de-duplication
pass clears `server` and ensures the provider. -/
theorem dedupeSC_cloudflare_label (cdn : Option (List String)) :
    dedupeSC (some "Cloudflare") cdn = (none, some (ensureCdn cdn "Cloudflare")) := by
  have h0 : (("Cloudflare" : String) == "") = false := by decide
  have h1 : containsI (String.mk (lowerStr "Cloudflare")) "cloudflare" = true := by decide
  simp [dedupeSC, h0, h1]

/-- A string containing `cloudflare` case-insensitively is not empty. -/
theorem ne_empty_of_containsI_cloudflare (sv : String)
    (h : containsI sv "cloudflare" = true) : (sv == "") = false := by
  cases he : sv == "" with
  | false => rfl
  | true =>
    exfalso
    have : sv = "" := eq_of_beq he
    subst this
    exact absurd h (by decide)

/-- Claim C1, counterexample: on an evidence bundle where the WordPress
markup detector and the React detector both return true (realizable HTML:
two wp-asset references plus a `data-reactroot` attribute), the record has
`isWordPress = true` but `javascriptFrameworks = ["React"]` — the claim's
required absence of `javascriptFrameworks` is false: the aggregator only
suppresses the CSS-framework block. -/
theorem wordpress_suppression_counterexample :
    wpReactSignals.wordpressMarkup = true ∧
    (detectTechStack wpReactSignals []).isWordPress = some true ∧
    (detectTechStack wpReactSignals []).javascriptFrameworks = some ["React"] := by
  decide

/-- Claim C1, amended: if the WordPress CMS detector (markup or discovery
probe) returns true and no earlier CMS in the priority chain (Shopify,
Squarespace, Wix) matched, the record has `isWordPress = true` and
`cssFrameworks` absent; `javascriptFrameworks` is not suppressed. -/
theorem wordpress_css_suppression (s : Signals) (hs : Headers)
    (h1 : s.shopify = false) (h2 : s.squarespace = false) (h3 : s.wix = false)
    (h4 : (s.wordpressMarkup || s.wordpressAPI) = true) :
    (detectTechStack s hs).isWordPress = some true ∧
    (detectTechStack s hs).cssFrameworks = none := by
  constructor
  · simp [detectTechStack, dedupeEdgeVsOrigin, isWordPressFlag, h1, h2, h3, h4]
  · simp [detectTechStack, dedupeEdgeVsOrigin, cssField, isWordPressFlag,
      h1, h2, h3, h4]

/-- Witness for the amended claim C1 at a concrete bundle. -/
theorem wordpress_css_suppression_witness :
    (detectTechStack wpReactSignals []).isWordPress = some true ∧
    (detectTechStack wpReactSignals []).cssFrameworks = none :=
  wordpress_css_suppression wpReactSignals [] (by decide) (by decide) (by decide)
    (by decide)

/-- Claim C7: CMS detection is first-match-wins in the fixed priority order
Shopify, Squarespace, Wix, WordPress (markup or API probe), Drupal, Joomla,
generator-meta fallback; the single `cms` field is fully determined by the
first positive detector, so at most one CMS is reported and later CMS
detectors have no effect once an earlier one matched. -/
theorem cms_first_match_wins (s : Signals) (hs : Headers) :
    (detectTechStack s hs).cms =
      (if s.shopify then some "Shopify"
       else if s.squarespace then some "Squarespace"
       else if s.wix then some "Wix"
       else if s.wordpressMarkup || s.wordpressAPI then some "WordPress"
       else if s.drupal then some "Drupal"
       else if s.joomla then some "Joomla"
       else match s.generator with
            | some g => if g == "" then none else some g
            | none => none) := by
  simp [detectTechStack, dedupeEdgeVsOrigin, cmsField]

/-- Claim C9: the aggregator is deterministic — two runs on the same frozen
evidence bundle (identical detector outcomes and identical headers) produce
identical records, including the order of every list field (the record is a
pure function of the evidence; list order is fixed by construction). -/
theorem detect_tech_stack_deterministic (s₁ s₂ : Signals) (h₁ h₂ : Headers)
    (hs : s₁ = s₂) (hh : h₁ = h₂) :
    detectTechStack s₁ h₁ = detectTechStack s₂ h₂ := by
  subst hs
  subst hh
  rfl

/-- Witness for claim C9 at a concrete bundle. -/
theorem detect_tech_stack_deterministic_witness :
    detectTechStack noSignals cloudflareHeaders =
      detectTechStack noSignals cloudflareHeaders :=
  detect_tech_stack_deterministic noSignals noSignals cloudflareHeaders
    cloudflareHeaders rfl rfl

/-- Claim C10, counterexample: with no CMS detector positive but a generator
meta tag whose content is exactly `WordPress` (one markup signal only, so the
WordPress detector itself scores 1 and stays false), the fallback stores
`cms = "WordPress"` while `isWordPress` stays absent — refuting the claimed
"exactly when" equivalence. -/
theorem isWordPress_iff_cms_counterexample :
    (detectTechStack generatorOnlySignals []).cms = some "WordPress" ∧
    (detectTechStack generatorOnlySignals []).isWordPress = none := by
  decide

/-- Claim C10, amended: `isWordPress` is only ever absent or `true`, and
whenever present it is `true` and `cms = "WordPress"`; the converse fails
because the generator-meta fallback can also set `cms = "WordPress"`. -/
theorem isWordPress_flag_invariant (s : Signals) (hs : Headers) :
    ((detectTechStack s hs).isWordPress = none ∨
      (detectTechStack s hs).isWordPress = some true) ∧
    ((detectTechStack s hs).isWordPress = some true →
      (detectTechStack s hs).cms = some "WordPress") := by
  cases hsh : s.shopify <;> cases hsq : s.squarespace <;> cases hw : s.wix <;>
    cases hwp : (s.wordpressMarkup || s.wordpressAPI) <;>
    simp [detectTechStack, dedupeEdgeVsOrigin, isWordPressFlag, cmsField,
      hsh, hsq, hw, hwp]

/-- Witness for the amended claim C10 at a concrete bundle. -/
theorem isWordPress_flag_invariant_witness :
    (detectTechStack wpReactSignals []).cms = some "WordPress" :=
  (isWordPress_flag_invariant wpReactSignals []).2 (by decide)

/-- Claim C3: a primary-document fetch that completes with HTTP status 403
always yields the distinct AccessDenied response (status 403 with the
forbidden message) — by the exact response equality it is never the generic
502 fetch-failure or 400 analysis-error response. -/
theorem forbidden_response_distinct (rb : ReqBody) (hdrs : Headers)
    (data : String) (sig : Signals) (sc : Nat)
    (hurl : urlInvalid rb.urlField = false) :
    POST (some rb) (.resp 403 hdrs data) sig sc =
      (.errorResp 403 "Access to the URL is forbidden (403).", 1) := by
  simp [POST, hurl]

/-- Witness for claim C3 at a concrete request. -/
theorem forbidden_response_distinct_witness :
    POST (some { urlField := some (.str "https://example.com") })
        (.resp 403 [] "") noSignals 0 =
      (.errorResp 403 "Access to the URL is forbidden (403).", 1) :=
  forbidden_response_distinct { urlField := some (.str "https://example.com") }
    [] "" noSignals 0 (by decide)

/-- Claim C4: a request body whose `url` field is missing or not a string
gets the InputError response (400, "URL is required") with zero outbound
network calls — neither the primary fetch nor any secondary fetch happens. -/
theorem input_error_no_network (rb : ReqBody) (f : PrimaryFetch)
    (sig : Signals) (sc : Nat)
    (h : rb.urlField = none ∨
      ∃ v, rb.urlField = some v ∧ isStringVal v = false) :
    POST (some rb) f sig sc = (.errorResp 400 "URL is required", 0) := by
  have hinv : urlInvalid rb.urlField = true := by
    rcases h with h | ⟨v, hv, hnv⟩
    · rw [h]; rfl
    · rw [hv]; simp [urlInvalid, hnv]
  simp [POST, hinv]

/-- Witness for claim C4 at a concrete request. -/
theorem input_error_no_network_witness :
    POST (some { urlField := none }) .netFail noSignals 0 =
      (.errorResp 400 "URL is required", 0) :=
  input_error_no_network { urlField := none } .netFail noSignals 0 (Or.inl rfl)

/-- Claim C5: every corroboration-threshold detector (Matomo, Plausible,
Mixpanel, Amplitude, jQuery, Backbone, Dojo, Meteor, and the WordPress
markup check) returns false whenever exactly one of its independent
sub-checks is true, since each requires a corroboration count of at least 2. -/
theorem corroboration_threshold :
    (∀ a b c : Bool, bnum a + bnum b + bnum c = 1 → containsMatomo a b c = false) ∧
    (∀ a b c : Bool, bnum a + bnum b + bnum c = 1 → containsPlausible a b c = false) ∧
    (∀ a b c : Bool, bnum a + bnum b + bnum c = 1 → containsMixpanel a b c = false) ∧
    (∀ a b c : Bool, bnum a + bnum b + bnum c = 1 → containsAmplitude a b c = false) ∧
    (∀ a b c : Bool, bnum a + bnum b + bnum c = 1 → containsjQuery a b c = false) ∧
    (∀ a b c : Bool, bnum a + bnum b + bnum c = 1 → containsBackbone a b c = false) ∧
    (∀ a b c : Bool, bnum a + bnum b + bnum c = 1 → containsDojo a b c = false) ∧
    (∀ a b c d : Bool, bnum a + bnum b + bnum c + bnum d = 1 →
      containsMeteor a b c d = false) ∧
    (∀ s1 s2 s3 s4 s5 s6 s7 s8 : Bool,
      bnum s1 + bnum s2 + bnum s3 + bnum s4 + bnum s5 + bnum s6 + bnum s7
        + bnum s8 = 1 →
      isWordPress s1 s2 s3 s4 s5 s6 s7 s8 = false) := by
  decide

/-- Witness for claim C5: single positive sub-checks at concrete inputs. -/
theorem corroboration_threshold_witness :
    containsMatomo true false false = false ∧
    containsjQuery false true false = false ∧
    isWordPress true false false false false false false false = false :=
  ⟨corroboration_threshold.1 true false false (by decide),
   corroboration_threshold.2.2.2.2.1 false true false (by decide),
   corroboration_threshold.2.2.2.2.2.2.2.2 true false false false false false
     false false (by decide)⟩

/-- Claim C6, counterexample: the work-list is not deduplicated — the same
script URL listed twice (e.g. two identical `script[src]` tags) appears
twice in the output of `pickTopScripts`. -/
theorem pickTopScripts_dedup_counterexample :
    pickTopScripts [some dupScriptCand, some dupScriptCand] =
      ["https://example.com/app.js", "https://example.com/app.js"] ∧
    ¬ (pickTopScripts [some dupScriptCand, some dupScriptCand]).Nodup := by
  decide

/-- Claim C6, amended: `pickTopScripts` returns at most
`MAX_SCRIPT_REQUESTS` (12) URLs, the selected candidates are (stably)
sorted ascending by the priority `(isModule ? 0 : 1) + (sameOrigin ? 0 : 1)`
— module and same-origin scripts first — and every returned URL comes from
one of the parsed candidates; no de-duplication is performed. -/
theorem pickTopScripts_capped_sorted (cands : List (Option ScriptCand)) :
    (pickTopScripts cands).length ≤ MAX_SCRIPT_REQUESTS ∧
    List.Sorted priOrder (selectedCands cands) ∧
    (∀ u ∈ pickTopScripts cands,
      ∃ c : ScriptCand, some c ∈ cands ∧ c.url = u) := by
  refine ⟨?_, ?_, ?_⟩
  · unfold pickTopScripts selectedCands
    rw [List.length_map]
    exact List.length_take_le _ _
  · exact List.Pairwise.sublist (List.take_sublist _ _)
      (List.sorted_insertionSort priOrder _)
  · intro u hu
    unfold pickTopScripts selectedCands at hu
    rcases List.mem_map.mp hu with ⟨c, hc, hcu⟩
    have hc2 : c ∈ (cands.filterMap id).insertionSort priOrder :=
      (List.take_sublist _ _).subset hc
    have hc3 : c ∈ cands.filterMap id := (List.mem_insertionSort priOrder).mp hc2
    rcases List.mem_filterMap.mp hc3 with ⟨a, ha, hac⟩
    have hac2 : a = some c := hac
    exact ⟨c, hac2 ▸ ha, hcu⟩

/-- Witness for the amended claim C6: a returned URL traced back to its
candidate at a concrete work-list. -/
theorem pickTopScripts_capped_sorted_witness :
    ∃ c : ScriptCand, some c ∈ [some dupScriptCand] ∧
      c.url = "https://example.com/app.js" :=
  (pickTopScripts_capped_sorted [some dupScriptCand]).2.2
    "https://example.com/app.js" (by decide)

/-- Claim C8: `fetchText` yields the body on success and `null` on any
failure (totality of the model captures "never raises"), and
`containsInScripts` returns true exactly when some work-list script was
successfully fetched with a truthy body matching the pattern — every failed
or empty fetch contributes "keyword absent" and the overall analysis still
gets an ordinary boolean. -/
theorem script_fetch_failures_absorbed (oracle : String → FetchOutcome)
    (cands : List (Option ScriptCand)) (matcher : String → Bool) :
    fetchText .fail = none ∧
    (∀ s : String, fetchText (.strData s) = some s) ∧
    (containsInScripts oracle cands matcher = true ↔
      ∃ u ∈ pickTopScripts cands, ∃ t, fetchText (oracle u) = some t ∧
        t ≠ "" ∧ matcher t = true) := by
  refine ⟨rfl, fun s => rfl, ?_⟩
  unfold containsInScripts
  rw [List.any_eq_true]
  apply exists_congr
  intro u
  apply and_congr_right
  intro _
  cases h : fetchText (oracle u) with
  | none => simp
  | some t =>
    by_cases ht : t = ""
    · subst ht
      simp
    · have htb : (t == "") = false := by
        cases he : t == "" with
        | false => rfl
        | true => exact absurd (eq_of_beq he) ht
      simp [htb, ht]

/-- Claim C2, counterexample: the `Server` value "apache cloudflare"
contains "cloudflare", yet the alias table maps it to "Apache HTTP Server"
(the Apache alias precedes the Cloudflare alias) and the de-duplication
pass — which inspects the mapped label, not the raw header — leaves
`server` present; "Cloudflare" still lands in `cdn` via `inferCDN`.  The
claimed universal "server absent" is therefore false. -/
theorem cloudflare_server_counterexample :
    containsI "apache cloudflare" "cloudflare" = true ∧
    (detectTechStack noSignals apacheCloudflareHeaders).server =
      some "Apache HTTP Server" ∧
    (detectTechStack noSignals apacheCloudflareHeaders).cdn =
      some ["Cloudflare"] := by
  decide

/-- Claim C2, amended: whenever the `Server` header value contains
"cloudflare" case-insensitively, "Cloudflare" is present in the final `cdn`
list; if additionally the value matches none of the alias patterns that
precede the Cloudflare alias in the table (gws / esf / google frontend /
google front end / apache / nginx), `server` is absent.  In particular,
headers `{server: "cloudflare"}` with no other evidence yield exactly the
record `cdn = ["Cloudflare"]` with `server` absent. -/
theorem cloudflare_cdn_dedupe (s : Signals) (hs : Headers) (sv : String)
    (hlk : List.lookup "server" hs = some sv)
    (hhg : hget hs "server" = sv)
    (hcf : containsI sv "cloudflare" = true) :
    "Cloudflare" ∈ ((detectTechStack s hs).cdn.getD []) ∧
    (containsI sv "gws" = false → containsI sv "esf" = false →
     containsI sv "google frontend" = false →
     containsI sv "google front end" = false →
     containsI sv "apache" = false → containsI sv "nginx" = false →
     (detectTechStack s hs).server = none) ∧
    detectTechStack noSignals cloudflareHeaders = { cdn := some ["Cloudflare"] } := by
  have hmem : "Cloudflare" ∈ inferCDN hs := by
    simp [inferCDN, pickLabels, hhg, hcf]
  have hcdn : optList (inferCDN hs) = some (inferCDN hs) :=
    optList_of_mem _ _ hmem
  have hprojc : (detectTechStack s hs).cdn =
      (dedupeSC (serverField hs) (optList (inferCDN hs))).2 := by
    simp [detectTechStack, dedupeEdgeVsOrigin]
  have hprojs : (detectTechStack s hs).server =
      (dedupeSC (serverField hs) (optList (inferCDN hs))).1 := by
    simp [detectTechStack, dedupeEdgeVsOrigin]
  refine ⟨?_, ?_, by decide⟩
  · rw [hprojc]
    apply mem_dedupeSC_cdn
    rw [hcdn]
    exact hmem
  · intro h1 h2 h3 h4 h5 h6
    have hne : (sv == "") = false := ne_empty_of_containsI_cloudflare sv hcf
    have hsf : serverField hs = some (mapServerHeader sv) := by
      unfold serverField
      rw [hlk]
      simp [hne]
    have hmap : mapServerHeader sv = "Cloudflare" := by
      unfold mapServerHeader
      simp [h1, h2, h3, h4, h5, h6, hcf]
    rw [hprojs, hsf, hmap, dedupeSC_cloudflare_label]

/-- Witness for the amended claim C2 at the spec's scenario headers. -/
theorem cloudflare_cdn_dedupe_witness :
    (detectTechStack noSignals cloudflareHeaders).server = none :=
  (cloudflare_cdn_dedupe noSignals cloudflareHeaders "cloudflare" (by decide)
      (by decide) (by decide)).2.1 (by decide) (by decide) (by decide)
    (by decide) (by decide) (by decide)
